import Mathlib

/-!
Shallow embedding of the jackrabbit/coney RPC dispatch core:
`jackrabbit/request.py` (Request envelope decode/encode),
`coney/exceptions.py` (exception taxonomy), and
`coney/server.py` (handler registry and dispatcher).

Python values that can travel through the serializer are modelled by
`PyVal`; Python exceptions that the dispatch code raises or catches are
modelled by `PyExc`.  Fallible Python code is modelled with `Except`.
-/

namespace Jackrabbit

/-- Codec-representable Python values: ints, strings, booleans, None,
lists, and string-keyed mappings (spec section 3: metadata and arguments
are string-keyed mappings). -/
inductive PyVal where
  | int (n : Int)
  | str (s : String)
  | bool (b : Bool)
  | none
  | list (xs : List PyVal)
  | map (kvs : List (String × PyVal))

/-- Exceptions that appear in the dispatch code paths.  `valueError`,
`typeError` and `attributeError` are Python builtins; `malformedRequest`
is `MalformedRequestException(serializer_name, request)` from
`coney/exceptions.py`; `remoteExecError` is `RemoteExecErrorException(details)`
from the same file; `dispatchHandler` and `handlerNotCallable` model
`DispatchHandlerException(code)` and `HandlerNotCallableException`,
which `server.py` imports but which are absent from the provided
`exceptions.py` (modelled from the spec's error taxonomy, section 7);
`exc` is any other generic exception, carrying its `str()` rendering. -/
inductive PyExc where
  | valueError (msg : String)
  | typeError (msg : String)
  | attributeError (msg : String)
  | malformedRequest (serializerName : String) (raw : String)
  | dispatchHandler (code : Nat)
  | remoteExecError (details : String)
  | handlerNotCallable
  | exc (msg : String)

/-- True for the exception classes matched by
`except (ValueError, TypeError)` in `Request.loads`. -/
def isValueOrTypeError : PyExc → Bool
  | .valueError _ => true
  | .typeError _ => true
  | _ => false

/-- True for the exception class matched by `except ValueError` in
the destructuring step of `Request.loads`. -/
def isValueError : PyExc → Bool
  | .valueError _ => true
  | _ => false

/-- The `str()` rendering of an exception, as used by
`str(ex)` in the dispatcher's generic `except Exception` clause.
`MalformedRequestException.__init__` never calls `super().__init__`, so
its `args` tuple is empty and `str()` of it is the empty string. -/
def pyStr : PyExc → String
  | .valueError m => m
  | .typeError m => m
  | .attributeError m => m
  | .malformedRequest _ _ => ""
  | .dispatchHandler _ => ""
  | .remoteExecError _ => ""
  | .handlerNotCallable => ""
  | .exc m => m

/-- A pluggable serializer (spec section 4.1): `dumps` encodes a
structured value to bytes, `loads` parses bytes back, possibly raising.
Bytes are modelled as `String`.  `name` is the class `__name__` used by
`MalformedRequestException`. -/
structure Serializer where
  name : String
  dumps : PyVal → String
  loads : String → Except PyExc PyVal

/-- A pluggable compressor (spec section 4.1): `compress` and
`decompress` transform byte payloads; `decompress` may raise on corrupt
input. -/
structure Compressor where
  compress : String → String
  decompress : String → Except PyExc String

/-- The `NullCompressor` default: the identity transform. -/
def nullCompressor : Compressor :=
  { compress := fun s => s, decompress := fun s => .ok s }

/-- The Request envelope (`jackrabbit/request.py`): version, metadata,
arguments, immutable after construction. -/
structure Request where
  version : PyVal
  metadata : PyVal
  arguments : PyVal

/-- Python slicing `l[0:3]`: defined for sequences (lists and strings,
returning at most the first three elements), a `TypeError` for
non-subscriptable values (ints, booleans, None) and for dicts (slices
are unhashable). -/
def pySlice03 : PyVal → Except PyExc PyVal
  | .list xs => .ok (.list (xs.take 3))
  | .str s => .ok (.str (s.take 3))
  | .int _ => .error (.typeError "int object is not subscriptable")
  | .bool _ => .error (.typeError "bool object is not subscriptable")
  | .none => .error (.typeError "NoneType object is not subscriptable")
  | .map _ => .error (.typeError "unhashable type: slice")

/-- Python iterable unpacking `version, metadata, args = v`: succeeds
exactly when `v` is an iterable of exactly three elements (iterating a
string yields its characters; iterating a dict yields its keys);
a `ValueError` on a length mismatch, a `TypeError` on a non-iterable. -/
def unpack3 : PyVal → Except PyExc (PyVal × PyVal × PyVal)
  | .list [a, b, c] => .ok (a, b, c)
  | .list _ => .error (.valueError "unpacking length mismatch")
  | .str s =>
    match s.toList with
    | [a, b, c] => .ok (.str (String.mk [a]), .str (String.mk [b]), .str (String.mk [c]))
    | _ => .error (.valueError "unpacking length mismatch")
  | .map [(k1, _), (k2, _), (k3, _)] => .ok (.str k1, .str k2, .str k3)
  | .map _ => .error (.valueError "unpacking length mismatch")
  | .int _ => .error (.typeError "cannot unpack non-iterable int")
  | .bool _ => .error (.typeError "cannot unpack non-iterable bool")
  | .none => .error (.typeError "cannot unpack non-iterable NoneType")

/-- `Request.loads(s, serializer)` from `jackrabbit/request.py`:
parse with the serializer, converting `ValueError`/`TypeError` into
`MalformedRequestException(serializer.__name__, s)`; then
`version, metadata, args = l[0:3]`, converting only `ValueError` into
`MalformedRequestException`; other exceptions propagate unchanged. -/
def Request.loads (s : String) (S : Serializer) : Except PyExc Request :=
  match S.loads s with
  | .error e =>
    if isValueOrTypeError e then .error (.malformedRequest S.name s) else .error e
  | .ok l =>
    match pySlice03 l with
    | .error e => .error e
    | .ok sliced =>
      match unpack3 sliced with
      | .error e =>
        if isValueError e then .error (.malformedRequest S.name s) else .error e
      | .ok (version, metadata, args) => .ok ⟨version, metadata, args⟩

/-- `Request.dumps(self, serializer)`: serialize the ordered triple
`[version, metadata, arguments]`. -/
def Request.dumps (r : Request) (S : Serializer) : String :=
  S.dumps (.list [r.version, r.metadata, r.arguments])

/-- Python truthiness of a `Request` instance: the class defines neither
`__bool__` nor `__len__`, so every instance is truthy. -/
def requestTruthy (_ : Request) : Bool := true

/-- Modelled from the spec: `response_codes.py` is not among the provided
sources.  The spec (section 3) requires a closed enumeration with stable
identifiers; concrete numbers are chosen arbitrarily but distinctly. -/
def ResponseCodes.SUCCESS : Nat := 0

/-- Modelled from the spec: see `ResponseCodes.SUCCESS`. -/
def ResponseCodes.MALFORMED_REQUEST : Nat := 1

/-- Modelled from the spec: see `ResponseCodes.SUCCESS`. -/
def ResponseCodes.METHOD_NOT_FOUND : Nat := 2

/-- Modelled from the spec: see `ResponseCodes.SUCCESS`. -/
def ResponseCodes.VERSION_NOT_FOUND : Nat := 3

/-- Modelled from the spec: see `ResponseCodes.SUCCESS`. -/
def ResponseCodes.UNEXPECTED_DISPATCH_EXCEPTION : Nat := 4

/-- Modelled from the spec: the static code-to-description table
(`ResponseCodes.describe`, spec section 4.4), used only for logging. -/
def ResponseCodes.describe (code : Nat) : String :=
  if code = ResponseCodes.SUCCESS then "Success"
  else if code = ResponseCodes.MALFORMED_REQUEST then "Malformed request"
  else if code = ResponseCodes.METHOD_NOT_FOUND then "Method not found"
  else if code = ResponseCodes.VERSION_NOT_FOUND then "Version not found"
  else if code = ResponseCodes.UNEXPECTED_DISPATCH_EXCEPTION then "Unexpected dispatch exception"
  else "Unknown"

/-- Modelled from the spec: `response.py` is not among the provided
sources.  Spec section 3: fields `value` (result, present on success),
`code` (Response Code; the constructor default is SUCCESS) and `details`
(optional human-readable string).  The constructor calls in `server.py`
are `Response(return_value)`, `Response(None, ex.code)` and
`Response(None, code, details)`. -/
structure Response where
  value : PyVal
  code : Nat
  details : Option String

/-- A handler body: receives the arguments mapping and either returns a
value or raises. -/
abbrev Handler := PyVal → Except PyExc PyVal

/-- A value passed to `register_handler`, together with the result of
the `utils.is_callable` test applied to it. -/
structure RegisteredFn where
  callable : Bool
  fn : Handler

/-- Python dict-key equality for hashable keys, used by the version
lookup `method_versions[request.version]` and the membership test
`version in self._queues[method_name]`.  In Python `True == 1` and they
hash equally, so booleans compare with ints.  Containers are unhashable
and can never be stored as dict keys, so they are handled by
`pyHashable`, not here. -/
def keyEq : PyVal → PyVal → Bool
  | .int a, .int b => a == b
  | .str a, .str b => a == b
  | .bool a, .bool b => a == b
  | .bool a, .int b => (if a then (1 : Int) else 0) == b
  | .int a, .bool b => a == (if b then (1 : Int) else 0)
  | .none, .none => true
  | _, _ => false

/-- True for values Python can use as dict keys; lists and dicts raise
`TypeError: unhashable type` when used as keys. -/
def pyHashable : PyVal → Bool
  | .list _ => false
  | .map _ => false
  | _ => true

/-- The per-method version map `self._queues[method_name]`: a dict from
version to registered handler. -/
abbrev VersionMap := List (PyVal × RegisteredFn)

/-- The handler registry `self._queues`: a dict from method name to
version map. -/
abbrev Registry := List (String × VersionMap)

/-- Dict lookup `self._queues[method_name]` (string keys). -/
def lookupMethod : Registry → String → Option VersionMap
  | [], _ => Option.none
  | (k, vm) :: rest, m => if k == m then some vm else lookupMethod rest m

/-- Dict assignment `self._queues[method_name] = vm`: replace in place
or append a new key. -/
def setMethod : Registry → String → VersionMap → Registry
  | [], m, vm => [(m, vm)]
  | (k, old) :: rest, m, vm =>
    if k == m then (k, vm) :: rest else (k, old) :: setMethod rest m vm

/-- Dict lookup `method_versions[version]`: a `TypeError` on an
unhashable key, otherwise the stored handler if the key is present. -/
def lookupVersion (vm : VersionMap) (v : PyVal) : Except PyExc (Option RegisteredFn) :=
  if pyHashable v = false then .error (.typeError "unhashable type")
  else .ok (go vm)
where
  go : VersionMap → Option RegisteredFn
    | [] => Option.none
    | (k, rf) :: rest => if keyEq k v then some rf else go rest

/-- Dict assignment `method_versions[version] = fn`. -/
def setVersion : VersionMap → PyVal → RegisteredFn → VersionMap
  | [], v, rf => [(v, rf)]
  | (k, old) :: rest, v, rf =>
    if keyEq k v then (k, rf) :: rest else (k, old) :: setVersion rest v rf

/-- `Server.register_handler(method_name, version, fn)` from
`coney/server.py`.  Raises `HandlerNotCallableException` on a
non-callable handler.  A new method name creates its version map (and,
in the source, the consumption binding via `_register_handler`; the
binding is not part of the registry state modelled here).  A known
method with a new version adds the version entry (the `else` arm of the
`try`).  A known method with a known version executes
`logger.warn('Duplicate handler registered for [{}/{}]').format(method_name, version)`:
`logger.warn` returns `None`, so the chained `.format` call raises
`AttributeError` out of `register_handler` (only `KeyError` is caught),
leaving the registry unchanged. -/
def register_handler (queues : Registry) (method_name : String) (version : PyVal)
    (fn : RegisteredFn) : Except PyExc Registry :=
  if fn.callable = false then .error .handlerNotCallable
  else
    match lookupMethod queues method_name with
    | Option.none =>
      -- `except KeyError`: the dict literal `{version: fn}` hashes the key
      if pyHashable version = false then .error (.typeError "unhashable type")
      else .ok (setMethod queues method_name [(version, fn)])
    | some vm =>
      match lookupVersion vm version with
      | .error e => .error e
      | .ok (some _) =>
        .error (.attributeError "NoneType object has no attribute format")
      | .ok Option.none => .ok (setMethod queues method_name (setVersion vm version fn))

/-- The broker-supplied message properties: reply address and
correlation token (`props.reply_to`, `props.correlation_id`). -/
structure Props where
  reply_to : String
  correlation_id : String

/-- Observable broker actions of one dispatcher callback: publishing a
Response to a routing key with a correlation id (the wire body is
`compress(resp.dumps(serializer))`; the event carries the Response
itself), and acknowledging the inbound message. -/
inductive Event where
  | publish (routingKey : String) (correlationId : String) (resp : Response)
  | ack

/-- The dispatcher's guard `if not request: raise
DispatchHandlerException(ResponseCodes.MALFORMED_REQUEST)` applied to a
loaded Request. -/
def malformedCheck (r : Request) : Option PyExc :=
  if requestTruthy r = false then some (.dispatchHandler ResponseCodes.MALFORMED_REQUEST)
  else Option.none

/-- Python keyword expansion `fn(**request.arguments)`: a `TypeError`
when the expanded value is not a mapping, otherwise the handler runs on
the arguments. -/
def callKwargs (rf : RegisteredFn) (args : PyVal) : Except PyExc PyVal :=
  match args with
  | .map _ => rf.fn args
  | _ => .error (.typeError "argument after ** must be a mapping")

/-- The attribute dictionary of a `RemoteExecErrorException(details)`
instance: `__init__` stores only `self._details = details`
(`coney/exceptions.py`); in particular neither `value` nor `details` is
an attribute. -/
def remoteExecErrorAttrs (details : String) : List (String × PyVal) :=
  [("_details", .str details)]

/-- Python attribute lookup on an instance attribute dictionary;
`Option.none` means the access raises `AttributeError`. -/
def getattr (attrs : List (String × PyVal)) (name : String) : Option PyVal :=
  match attrs with
  | [] => Option.none
  | (k, v) :: rest => if k == name then some v else getattr rest name

/-- Cast used only on the dead branch of the `RemoteExecErrorException`
clause (see `exceptClauses`): a code attribute value as a Nat. -/
def pyToCode : PyVal → Nat
  | .int n => n.toNat
  | _ => 0

/-- Cast used only on the dead branch of the `RemoteExecErrorException`
clause (see `exceptClauses`): a details attribute value as a String. -/
def pyToStr : PyVal → String
  | .str s => s
  | _ => ""

/-- The `try` suite of `_dispatcher` in `coney/server.py`:
decompress, `Request.loads`, the falsy-request guard, the
`self._queues[method_name]` lookup (`KeyError` becomes
`DispatchHandlerException(METHOD_NOT_FOUND)`), the
`method_versions[request.version]` lookup (`KeyError` becomes
`DispatchHandlerException(VERSION_NOT_FOUND)`), then
`fn(**request.arguments)` and `Response(return_value)`. -/
def tryBody (queues : Registry) (method_name : String) (S : Serializer) (C : Compressor)
    (raw_body : String) : Except PyExc Response :=
  match C.decompress raw_body with
  | .error e => .error e
  | .ok body =>
    match Request.loads body S with
    | .error e => .error e
    | .ok request =>
      match malformedCheck request with
      | some e => .error e
      | Option.none =>
        match lookupMethod queues method_name with
        | Option.none => .error (.dispatchHandler ResponseCodes.METHOD_NOT_FOUND)
        | some method_versions =>
          match lookupVersion method_versions request.version with
          | .error e => .error e
          | .ok Option.none => .error (.dispatchHandler ResponseCodes.VERSION_NOT_FOUND)
          | .ok (some rf) =>
            match callKwargs rf request.arguments with
            | .error e => .error e
            | .ok return_value =>
              .ok (Response.mk return_value ResponseCodes.SUCCESS Option.none)

/-- The `except` clauses of `_dispatcher`, in source order:
`except DispatchHandlerException as ex` builds `Response(None, ex.code)`;
`except RemoteExecErrorException as ex` first evaluates
`ex.value` and `ex.details` for its debug log line — attribute lookups on
an instance whose only attribute is `_details`, so `ex.value` raises
`AttributeError`, which escapes the handler (an exception raised inside
an `except` suite is not caught by the remaining clauses of the same
`try`); `except Exception as ex` builds
`Response(None, UNEXPECTED_DISPATCH_EXCEPTION, str(ex))`.
`MalformedRequestException` is a direct `ConeyException`, not a
`DispatchHandlerException`, so codec failures land in the generic
clause. -/
def exceptClauses : Except PyExc Response → Except PyExc Response
  | .ok resp => .ok resp
  | .error (.dispatchHandler code) => .ok (Response.mk PyVal.none code Option.none)
  | .error (.remoteExecError details) =>
    match getattr (remoteExecErrorAttrs details) "value" with
    | Option.none =>
      .error (.attributeError "RemoteExecErrorException object has no attribute value")
    | some v =>
      match getattr (remoteExecErrorAttrs details) "details" with
      | Option.none =>
        .error (.attributeError "RemoteExecErrorException object has no attribute details")
      | some d => .ok (Response.mk PyVal.none (pyToCode v) (some (pyToStr d)))
  | .error e =>
    .ok (Response.mk PyVal.none ResponseCodes.UNEXPECTED_DISPATCH_EXCEPTION (some (pyStr e)))

/-- One run of the `_dispatcher` callback: if the `try`/`except`
ladder produces a Response, it is published to the reply address with
the original correlation id and the message is then acknowledged; if an
exception escapes the ladder, the callback raises and neither publish
nor acknowledgement happens. -/
def dispatcher (queues : Registry) (method_name : String) (S : Serializer) (C : Compressor)
    (props : Props) (raw_body : String) : Except PyExc (List Event) :=
  match exceptClauses (tryBody queues method_name S C raw_body) with
  | .error e => .error e
  | .ok resp =>
    .ok [Event.publish props.reply_to props.correlation_id resp, Event.ack]

/-! Concrete fixtures used to evaluate the embedding on the spec's
scenarios: serializers with fixed parse behaviour (the serializer is a
pluggable capability; these instantiate it), and handlers. -/

/-- A serializer whose parse always fails with `ValueError`, as msgpack
does on junk bytes such as `"not-a-valid-payload"`. -/
def failSerializer : Serializer :=
  { name := "MsgpackSerializer", dumps := fun _ => "", loads := fun _ => .error (.valueError "unpack failed") }

/-- A serializer that parses any payload to the envelope
`[1, {}, {x: 42}]` of the spec's echo scenario, and encodes anything to
a fixed byte string. -/
def echoReqSerializer : Serializer :=
  { name := "MsgpackSerializer", dumps := fun _ => "enc",
    loads := fun _ => .ok (.list [.int 1, .map [], .map [("x", .int 42)]]) }

/-- A serializer that parses any payload to the envelope `[1, {}, {}]`. -/
def emptyArgsSerializer : Serializer :=
  { name := "MsgpackSerializer", dumps := fun _ => "enc",
    loads := fun _ => .ok (.list [.int 1, .map [], .map []]) }

/-- A serializer that parses any payload to a four-element list. -/
def fourSerializer : Serializer :=
  { name := "MsgpackSerializer", dumps := fun _ => "enc",
    loads := fun _ => .ok (.list [.int 1, .int 2, .int 3, .int 4]) }

/-- A serializer that parses any payload to a one-element list. -/
def shortSerializer : Serializer :=
  { name := "MsgpackSerializer", dumps := fun _ => "enc",
    loads := fun _ => .ok (.list [.int 7]) }

/-- The spec's echo handler `fn(x) -> x`: returns the value bound to
parameter `x`. -/
def echoX : RegisteredFn :=
  { callable := true,
    fn := fun a =>
      match a with
      | .map [("x", v)] => .ok v
      | _ => .error (.typeError "missing argument x") }

/-- A handler that returns the constant 7. -/
def constSeven : RegisteredFn :=
  { callable := true, fn := fun _ => .ok (.int 7) }

/-- A handler that raises `RemoteExecErrorException("boom")`. -/
def remoteBoom : RegisteredFn :=
  { callable := true, fn := fun _ => .error (.remoteExecError "boom") }

/-- A handler that raises `RemoteExecErrorException("disk full")`. -/
def remoteDisk : RegisteredFn :=
  { callable := true, fn := fun _ => .error (.remoteExecError "disk full") }

/-- A handler that raises a generic exception whose `str()` is empty,
as `raise Exception()` is. -/
def raiseEmpty : RegisteredFn :=
  { callable := true, fn := fun _ => .error (.exc "") }

/-- A handler that raises a generic exception whose `str()` is
`"boom"`. -/
def raiseBoom : RegisteredFn :=
  { callable := true, fn := fun _ => .error (.exc "boom") }

/-- Helper: Python `l[0:3]` on a list of at least three elements keeps
exactly the first three. -/
theorem take3_cons (a b c : PyVal) (rest : List PyVal) :
    (a :: b :: c :: rest).take 3 = [a, b, c] := rfl

/-- Helper: `l[0:3]` on the empty list. -/
theorem take3_nil : ([] : List PyVal).take 3 = [] := rfl

/-- Helper: `l[0:3]` on a one-element list. -/
theorem take3_one (a : PyVal) : [a].take 3 = [a] := rfl

/-- Helper: `l[0:3]` on a two-element list. -/
theorem take3_two (a b : PyVal) : [a, b].take 3 = [a, b] := rfl

/-- C1: dispatching raw bytes the codec cannot decode does NOT produce
`MALFORMED_REQUEST`.  `Request.loads` raises
`MalformedRequestException`, which is a `ConeyException`, not a
`DispatchHandlerException`, so it falls through to the dispatcher's
generic `except Exception` clause: the published Response carries
`UNEXPECTED_DISPATCH_EXCEPTION` with `details = str(ex) = ""`.  The
dispatcher's own dead guard `raise
DispatchHandlerException(MALFORMED_REQUEST)` shows the intended code. -/
theorem c1_malformed_payload_code_bug :
    dispatcher [("echo", [(PyVal.int 1, echoX)])] "echo" failSerializer nullCompressor
        (Props.mk "reply-q" "corr-1") "not-a-valid-payload"
      = .ok [Event.publish "reply-q" "corr-1"
              (Response.mk PyVal.none ResponseCodes.UNEXPECTED_DISPATCH_EXCEPTION (some "")),
             Event.ack]
    ∧ ResponseCodes.UNEXPECTED_DISPATCH_EXCEPTION ≠ ResponseCodes.MALFORMED_REQUEST :=
  ⟨rfl, by decide⟩

/-- C2: registering the same (method, version) twice leaves the first
handler installed and dispatch still invokes it, but the second call
raises `AttributeError` instead of merely logging: the source applies
`.format` to the return value of `logger.warn`, which is `None`. -/
theorem c2_duplicate_registration_code_bug :
    register_handler [] "echo" (PyVal.int 1) echoX = .ok [("echo", [(PyVal.int 1, echoX)])]
    ∧ register_handler [("echo", [(PyVal.int 1, echoX)])] "echo" (PyVal.int 1) constSeven
        = .error (.attributeError "NoneType object has no attribute format")
    ∧ dispatcher [("echo", [(PyVal.int 1, echoX)])] "echo" echoReqSerializer nullCompressor
        (Props.mk "rq2" "cid2") "payload2"
      = .ok [Event.publish "rq2" "cid2"
              (Response.mk (PyVal.int 42) ResponseCodes.SUCCESS Option.none),
             Event.ack] :=
  ⟨rfl, rfl, rfl⟩

/-- C3: the reply-then-acknowledge contract is broken on the
`RemoteExecErrorException` path: the except clause evaluates `ex.value`
on an instance whose only attribute is `_details`, so `AttributeError`
escapes the callback — nothing is published and the message is never
acknowledged. -/
theorem c3_reply_ack_code_bug :
    dispatcher [("m3", [(PyVal.int 1, remoteBoom)])] "m3" emptyArgsSerializer nullCompressor
        (Props.mk "rq3" "cid3") "raw3"
      = .error (.attributeError "RemoteExecErrorException object has no attribute value") :=
  rfl

/-- C5: a handler signalling a structured remote-execution error does
NOT get its code and details propagated into a Response:
`RemoteExecErrorException.__init__` stores only `_details` (and accepts
no code at all), so the dispatcher's accesses to `ex.value` raise
`AttributeError` and the callback crashes without publishing or
acknowledging. -/
theorem c5_remote_exec_error_code_bug :
    dispatcher [("m5", [(PyVal.int 1, remoteDisk)])] "m5" emptyArgsSerializer nullCompressor
        (Props.mk "rq5" "cid5") "raw5"
      = .error (.attributeError "RemoteExecErrorException object has no attribute value") :=
  rfl

/-- C4 counterexample: a parseable payload with FOUR top-level elements
is not a decode failure — `l[0:3]` keeps the first three and the
unpacking succeeds, yielding a Request built from them. -/
theorem c4_counterexample_four_elements :
    Request.loads "four-elements" fourSerializer
      = .ok (Request.mk (PyVal.int 1) (PyVal.int 2) (PyVal.int 3)) :=
  rfl

/-- C8 counterexample: a handler raising a generic exception with an
empty `str()` rendering (as `raise Exception()` has) yields a Response
whose details are present but EMPTY, refuting the claim that the details
are always non-empty. -/
theorem c8_counterexample_empty_details :
    dispatcher [("m8", [(PyVal.int 1, raiseEmpty)])] "m8" emptyArgsSerializer nullCompressor
        (Props.mk "rq8" "cid8") "raw8"
      = .ok [Event.publish "rq8" "cid8"
              (Response.mk PyVal.none ResponseCodes.UNEXPECTED_DISPATCH_EXCEPTION (some "")),
             Event.ack]
    ∧ String.length "" = 0 :=
  ⟨rfl, rfl⟩

/-- C6: whenever decompression and parsing produce a well-formed
three-element envelope, the (method, version) lookup resolves to a
registered handler, and the handler returns normally on the arguments,
the dispatcher publishes `Response(value = return value, code = SUCCESS,
no details)` to the reply address with the original correlation id and
then acknowledges. -/
theorem c6_success_response (queues : Registry) (m : String) (S : Serializer) (C : Compressor)
    (props : Props) (raw body : String) (v md : PyVal) (kvs : List (String × PyVal))
    (vm : VersionMap) (rf : RegisteredFn) (ret : PyVal)
    (hC : C.decompress raw = .ok body)
    (hS : S.loads body = .ok (.list [v, md, .map kvs]))
    (hm : lookupMethod queues m = some vm)
    (hv : lookupVersion vm v = .ok (some rf))
    (hf : rf.fn (.map kvs) = .ok ret) :
    dispatcher queues m S C props raw
      = .ok [Event.publish props.reply_to props.correlation_id
              (Response.mk ret ResponseCodes.SUCCESS Option.none),
             Event.ack] := by
  simp [dispatcher, exceptClauses, tryBody, Request.loads, hC, hS, pySlice03, take3_cons,
    unpack3, malformedCheck, requestTruthy, hm, hv, callKwargs, hf]

/-- C6 witness: the spec's echo scenario — register `("echo", 1, fn(x) -> x)`
and dispatch the envelope `[1, {}, {x: 42}]`; the reply is
`Response(code = SUCCESS, value = 42)`. -/
theorem c6_success_response_witness :
    dispatcher [("echo", [(PyVal.int 1, echoX)])] "echo" echoReqSerializer nullCompressor
        (Props.mk "rq6" "cid6") "raw6"
      = .ok [Event.publish "rq6" "cid6"
              (Response.mk (PyVal.int 42) ResponseCodes.SUCCESS Option.none),
             Event.ack] :=
  c6_success_response [("echo", [(PyVal.int 1, echoX)])] "echo" echoReqSerializer
    nullCompressor (Props.mk "rq6" "cid6") "raw6" "raw6" (PyVal.int 1) (PyVal.map [])
    [("x", PyVal.int 42)] [(PyVal.int 1, echoX)] echoX (PyVal.int 42)
    rfl rfl rfl rfl rfl

/-- C7: for a well-decoded Request, a registry without the dispatcher's
method name yields `Response(None, METHOD_NOT_FOUND)` (published, then
acknowledged), and a registered method without the Request's version in
its version map yields `Response(None, VERSION_NOT_FOUND)`. -/
theorem c7_lookup_misses (queues : Registry) (m : String) (S : Serializer) (C : Compressor)
    (props : Props) (raw body : String) (v md args : PyVal)
    (hC : C.decompress raw = .ok body)
    (hS : S.loads body = .ok (.list [v, md, args])) :
    (lookupMethod queues m = Option.none →
      dispatcher queues m S C props raw
        = .ok [Event.publish props.reply_to props.correlation_id
                (Response.mk PyVal.none ResponseCodes.METHOD_NOT_FOUND Option.none),
               Event.ack])
    ∧ (∀ vm : VersionMap, lookupMethod queues m = some vm →
        lookupVersion vm v = .ok Option.none →
        dispatcher queues m S C props raw
          = .ok [Event.publish props.reply_to props.correlation_id
                  (Response.mk PyVal.none ResponseCodes.VERSION_NOT_FOUND Option.none),
                 Event.ack]) := by
  constructor
  · intro hm
    simp [dispatcher, exceptClauses, tryBody, Request.loads, hC, hS, pySlice03, take3_cons,
      unpack3, malformedCheck, requestTruthy, hm]
  · intro vm hm hv
    simp [dispatcher, exceptClauses, tryBody, Request.loads, hC, hS, pySlice03, take3_cons,
      unpack3, malformedCheck, requestTruthy, hm, hv]

/-- C7 witness: an empty registry yields METHOD_NOT_FOUND; a registry
holding only version 2 of the method yields VERSION_NOT_FOUND for a
version-1 Request. -/
theorem c7_lookup_misses_witness :
    dispatcher [] "nosuch" emptyArgsSerializer nullCompressor (Props.mk "rq7" "cid7") "raw7"
      = .ok [Event.publish "rq7" "cid7"
              (Response.mk PyVal.none ResponseCodes.METHOD_NOT_FOUND Option.none),
             Event.ack]
    ∧ dispatcher [("m7", [(PyVal.int 2, constSeven)])] "m7" emptyArgsSerializer nullCompressor
        (Props.mk "rq7b" "cid7b") "raw7b"
      = .ok [Event.publish "rq7b" "cid7b"
              (Response.mk PyVal.none ResponseCodes.VERSION_NOT_FOUND Option.none),
             Event.ack] :=
  ⟨(c7_lookup_misses [] "nosuch" emptyArgsSerializer nullCompressor (Props.mk "rq7" "cid7")
      "raw7" "raw7" (PyVal.int 1) (PyVal.map []) (PyVal.map []) rfl rfl).1 rfl,
   (c7_lookup_misses [("m7", [(PyVal.int 2, constSeven)])] "m7" emptyArgsSerializer
      nullCompressor (Props.mk "rq7b" "cid7b") "raw7b" "raw7b" (PyVal.int 1) (PyVal.map [])
      (PyVal.map []) rfl rfl).2 [(PyVal.int 2, constSeven)] rfl rfl⟩

/-- C8 amended: a handler raising any failure other than the
remote-execution error kind and the dispatcher's internal control
exception yields `Response(None, UNEXPECTED_DISPATCH_EXCEPTION,
str(ex))` — the stringified failure, which may be empty — published and
then acknowledged. -/
theorem c8_amended_unexpected_exception (queues : Registry) (m : String) (S : Serializer)
    (C : Compressor) (props : Props) (raw body : String) (v md : PyVal)
    (kvs : List (String × PyVal)) (vm : VersionMap) (rf : RegisteredFn) (e : PyExc)
    (hC : C.decompress raw = .ok body)
    (hS : S.loads body = .ok (.list [v, md, .map kvs]))
    (hm : lookupMethod queues m = some vm)
    (hv : lookupVersion vm v = .ok (some rf))
    (hf : rf.fn (.map kvs) = .error e)
    (hre : ∀ d, e ≠ .remoteExecError d)
    (hdh : ∀ c, e ≠ .dispatchHandler c) :
    dispatcher queues m S C props raw
      = .ok [Event.publish props.reply_to props.correlation_id
              (Response.mk PyVal.none ResponseCodes.UNEXPECTED_DISPATCH_EXCEPTION
                (some (pyStr e))),
             Event.ack] := by
  have htry : tryBody queues m S C raw = .error e := by
    simp [tryBody, Request.loads, hC, hS, pySlice03, take3_cons, unpack3, malformedCheck,
      requestTruthy, hm, hv, callKwargs, hf]
  cases e with
  | remoteExecError d => exact absurd rfl (hre d)
  | dispatchHandler c => exact absurd rfl (hdh c)
  | valueError msg => simp [dispatcher, htry, exceptClauses, pyStr]
  | typeError msg => simp [dispatcher, htry, exceptClauses, pyStr]
  | attributeError msg => simp [dispatcher, htry, exceptClauses, pyStr]
  | malformedRequest n r => simp [dispatcher, htry, exceptClauses, pyStr]
  | handlerNotCallable => simp [dispatcher, htry, exceptClauses, pyStr]
  | exc msg => simp [dispatcher, htry, exceptClauses, pyStr]

/-- C8 amended witness: a handler raising a generic exception rendered
as `"boom"` yields `Response(None, UNEXPECTED_DISPATCH_EXCEPTION,
"boom")`, published and acknowledged. -/
theorem c8_amended_unexpected_exception_witness :
    dispatcher [("m8w", [(PyVal.int 1, raiseBoom)])] "m8w" emptyArgsSerializer nullCompressor
        (Props.mk "rq8w" "cid8w") "raw8w"
      = .ok [Event.publish "rq8w" "cid8w"
              (Response.mk PyVal.none ResponseCodes.UNEXPECTED_DISPATCH_EXCEPTION
                (some "boom")),
             Event.ack] :=
  c8_amended_unexpected_exception [("m8w", [(PyVal.int 1, raiseBoom)])] "m8w"
    emptyArgsSerializer nullCompressor (Props.mk "rq8w" "cid8w") "raw8w" "raw8w"
    (PyVal.int 1) (PyVal.map []) [] [(PyVal.int 1, raiseBoom)] raiseBoom (.exc "boom")
    rfl rfl rfl rfl rfl (fun _ h => PyExc.noConfusion h) (fun _ h => PyExc.noConfusion h)

/-- C9: with a serializer that inverts its own encoding on the envelope,
`Request.loads` applied to `Request.dumps` reconstructs the original
version, metadata and arguments (round-trip law). -/
theorem c9_round_trip (S : Serializer) (v md args : PyVal)
    (h : S.loads (S.dumps (.list [v, md, args])) = .ok (.list [v, md, args])) :
    Request.loads ((Request.mk v md args).dumps S) S = .ok (Request.mk v md args) := by
  simp [Request.dumps, Request.loads, h, pySlice03, take3_cons, unpack3]

/-- C9 witness: round-trip of the echo envelope
`(1, {}, {x: 42})` through a serializer that inverts its encoding of
that envelope. -/
theorem c9_round_trip_witness :
    Request.loads
        ((Request.mk (PyVal.int 1) (PyVal.map []) (PyVal.map [("x", PyVal.int 42)])).dumps
          echoReqSerializer)
        echoReqSerializer
      = .ok (Request.mk (PyVal.int 1) (PyVal.map []) (PyVal.map [("x", PyVal.int 42)])) :=
  c9_round_trip echoReqSerializer (PyVal.int 1) (PyVal.map [])
    (PyVal.map [("x", PyVal.int 42)]) rfl

/-- C10: every Request that `Request.loads` returns is truthy (the class
defines neither `__bool__` nor `__len__`), so the dispatcher's guard
`if not request: raise DispatchHandlerException(MALFORMED_REQUEST)`
never fires: `malformedCheck` is `None` on every loaded Request. -/
theorem c10_loads_never_falsy (S : Serializer) (s : String) (r : Request)
    (_h : Request.loads s S = .ok r) :
    requestTruthy r = true ∧ malformedCheck r = Option.none :=
  ⟨rfl, rfl⟩

/-- C10 witness: the Request loaded from a concrete envelope is truthy
and passes the dispatcher's guard. -/
theorem c10_loads_never_falsy_witness :
    requestTruthy (Request.mk (PyVal.int 1) (PyVal.map []) (PyVal.map [])) = true
    ∧ malformedCheck (Request.mk (PyVal.int 1) (PyVal.map []) (PyVal.map []))
        = Option.none :=
  c10_loads_never_falsy emptyArgsSerializer "w10"
    (Request.mk (PyVal.int 1) (PyVal.map []) (PyVal.map [])) rfl

/-- C4 amended: for a serializer that signals parse failure as
`ValueError`/`TypeError` and parses payloads to list-structured values,
`Request.loads` fails with the MalformedRequest error (carrying the
serializer's name and the raw payload) exactly when the payload cannot
be parsed or the parsed list has FEWER than three top-level elements; a
parseable payload with three or more top-level elements yields a
Request built from the first three. -/
theorem c4_amended_decode_failure (S : Serializer) (s : String)
    (herr : ∀ e, S.loads s = .error e → isValueOrTypeError e = true)
    (hlist : ∀ v, S.loads s = .ok v → ∃ xs, v = PyVal.list xs) :
    (Request.loads s S = .error (.malformedRequest S.name s)
      ↔ (∃ e, S.loads s = .error e)
        ∨ (∃ xs, S.loads s = .ok (.list xs) ∧ xs.length < 3))
    ∧ (∀ a b c rest, S.loads s = .ok (.list (a :: b :: c :: rest)) →
        Request.loads s S = .ok (Request.mk a b c)) := by
  cases h : S.loads s with
  | error e =>
    have hvte := herr e h
    have hl : Request.loads s S = .error (.malformedRequest S.name s) := by
      simp [Request.loads, h, hvte]
    refine ⟨iff_of_true hl (Or.inl ⟨e, rfl⟩), ?_⟩
    intro a b c rest habs
    exact Except.noConfusion habs
  | ok v =>
    obtain ⟨xs, rfl⟩ := hlist v h
    rcases xs with _ | ⟨a1, _ | ⟨a2, _ | ⟨a3, rest1⟩⟩⟩
    · have hl : Request.loads s S = .error (.malformedRequest S.name s) := by
        simp [Request.loads, h, pySlice03, take3_nil, unpack3, isValueError]
      refine ⟨iff_of_true hl (Or.inr ⟨[], rfl, by simp⟩), ?_⟩
      intro a b c rest habs
      simp at habs
    · have hl : Request.loads s S = .error (.malformedRequest S.name s) := by
        simp [Request.loads, h, pySlice03, take3_one, unpack3, isValueError]
      refine ⟨iff_of_true hl (Or.inr ⟨[a1], rfl, by simp⟩), ?_⟩
      intro a b c rest habs
      simp at habs
    · have hl : Request.loads s S = .error (.malformedRequest S.name s) := by
        simp [Request.loads, h, pySlice03, take3_two, unpack3, isValueError]
      refine ⟨iff_of_true hl (Or.inr ⟨[a1, a2], rfl, by simp⟩), ?_⟩
      intro a b c rest habs
      simp at habs
    · have hl : Request.loads s S = .ok (Request.mk a1 a2 a3) := by
        simp [Request.loads, h, pySlice03, take3_cons, unpack3]
      constructor
      · apply iff_of_false
        · rw [hl]
          exact fun habs => Except.noConfusion habs
        · rintro (⟨e, he⟩ | ⟨ys, hy, hlen⟩)
          · exact Except.noConfusion he
          · simp at hy
            subst hy
            simp only [List.length_cons] at hlen
            omega
      · intro a b c rest habs
        simp at habs
        obtain ⟨h1, h2, h3, h4⟩ := habs
        subst h1
        subst h2
        subst h3
        exact hl

/-- C4 amended witness: a serializer parsing everything to the
one-element list `[7]` makes `Request.loads` fail with the
MalformedRequest error for the payload. -/
theorem c4_amended_decode_failure_witness :
    Request.loads "short" shortSerializer
      = .error (.malformedRequest "MsgpackSerializer" "short") :=
  (c4_amended_decode_failure shortSerializer "short"
      (fun e h => Except.noConfusion h)
      (fun v h => ⟨[PyVal.int 7], by simpa [shortSerializer] using h.symm⟩)).1.mpr
    (Or.inr ⟨[PyVal.int 7], rfl, by decide⟩)

end Jackrabbit
